import Mathlib

/-!
Verification development for the SHFE margin-notice pipeline
(`shfe_scraper.py`): a shallow embedding of the relevance classifier,
the Gemini-result validation loop, the incremental batch persistence
engine, the pagination controller of `run_scraper`, the XLS export
builders, and (modelled from the specification, since its code is not
in the repository snapshot) the reversion resolver.

Strings are embedded as Lean `String`s; Python substring tests,
lower-casing and the regular-expression patterns actually used (which
are all of the form `piece₁.*piece₂.*…`) are implemented over
`List Char`.  Numeric percentage values are embedded as `ℚ`, scores as
`ℤ`.  All definitions are executable.
-/

namespace SHFE

/-! ## String utilities mirroring the Python primitives -/

/-- Python `pat in s` (substring containment); `containsSub s pat` scans `s`. -/
def containsSub : List Char → List Char → Bool
  | [], pat => pat.isEmpty
  | s@(_ :: rest), pat => pat.isPrefixOf s || containsSub rest pat

/-- Python `pat in s` on `String`s. -/
def strIn (pat s : String) : Bool := containsSub s.data pat.data

/-- ASCII lower-casing of one character (Python `str.lower` on the
character sets appearing in this code base: ASCII plus CJK, the latter
unchanged). -/
def lowerChar (c : Char) : Char :=
  if 'A' ≤ c ∧ c ≤ 'Z' then Char.ofNat (c.toNat + 32) else c

/-- ASCII upper-casing of one character (Python `str.upper`). -/
def upperChar (c : Char) : Char :=
  if 'a' ≤ c ∧ c ≤ 'z' then Char.ofNat (c.toNat - 32) else c

/-- Python `s.lower()`. -/
def lowerStr (s : String) : String := String.mk (s.data.map lowerChar)

/-- Python `s.strip()` on character lists. -/
def trimChars (s : List Char) : List Char :=
  ((s.dropWhile Char.isWhitespace).reverse.dropWhile Char.isWhitespace).reverse

/-- Python `s.strip()`. -/
def stripStr (s : String) : String := String.mk (trimChars s.data)

/-- Remainder of `s` strictly after the first occurrence of `pat`
(`none` when `pat` does not occur). -/
def afterFirst (pat : List Char) : List Char → Option (List Char)
  | [] => if pat.isEmpty then some [] else none
  | s@(_ :: rest) =>
    if pat.isPrefixOf s then some (s.drop pat.length) else afterFirst pat rest

/-- Matching of a `piece₁.*piece₂.*…` pattern: all pieces occur, in order. -/
def piecesInOrder : List (List Char) → List Char → Bool
  | [], _ => true
  | p :: ps, s =>
    match afterFirst p s with
    | none => false
    | some rest => piecesInOrder ps rest

/-- Python `re.search` for the dotted-star patterns used by the scraper:
the pattern is given as its literal pieces. -/
def regexSearch (pieces : List String) (s : String) : Bool :=
  piecesInOrder (pieces.map String.data) s.data

/-! ## Relevance classifier (`EnhancedMarginInterestDetector`) -/

/-- Field `margin_keywords` of `EnhancedMarginInterestDetector.__init__`. -/
def marginKeywords : List String :=
  ["margin", "ratio", "保证金", "比例", "调整", "adjust",
   "price limits", "涨跌停板", "notice", "通知",
   "hedging", "speculative", "套期保值", "投机"]

/-- Field `commodity_keywords` of `EnhancedMarginInterestDetector.__init__`. -/
def commodityKeywords : List String :=
  ["copper", "铜", "aluminum", "铝", "zinc", "锌", "lead", "铅", "tin", "锡",
   "nickel", "镍", "gold", "黄金", "silver", "白银", "rebar", "螺纹钢",
   "fuel oil", "燃料油", "steel", "钢", "pulp", "纸浆", "alumina", "氧化铝",
   "asphalt", "沥青", "rubber", "橡胶", "期货", "futures"]

/-- Local `margin_primary_patterns` of `calculate_margin_relevance_score`,
each regex given as its `.*`-separated pieces. -/
def marginPrimaryPatterns : List (List String) :=
  [["notice on adjusting the margin ratio and price limits"],
   ["关于调整", "保证金比例", "涨跌停板", "通知"],
   ["关于调整", "保证金比例", "通知"],
   ["调整", "保证金比例", "涨跌停板"],
   ["调整", "交易保证金", "通知"]]

/-- Local `holiday_patterns` of `calculate_margin_relevance_score`. -/
def holidayPatterns : List String :=
  ["端午节", "劳动节", "春节", "国庆节", "中秋节",
   "Dragon Boat", "Labor Day", "Spring Festival", "National Day", "holiday"]

/-- Local `exchange_keywords` of `calculate_margin_relevance_score`. -/
def exchangeKeywords : List String :=
  ["上海期货交易所", "上海国际能源交易中心", "SHFE", "INE",
   "Shanghai Futures Exchange", "Shanghai International Energy Exchange"]

/-- Local `exclusion_patterns` of `calculate_margin_relevance_score`,
each regex given as its `.*`-separated pieces. -/
def exclusionPatterns : List (List String) :=
  [["关于同意", "品牌", "注册", "公告"],
   ["关于就", "征求意见", "公告"],
   ["关于注销", "注册", "资质", "公告"],
   ["关于", "人事", "任免", "公告"],
   ["关于", "会议", "纪要", "公告"],
   ["仓库", "库容", "公告"],
   ["delivery", "suspend"]]

/-- Python `sum(1 for kw in kws if kw.lower() in text)`. -/
def countMatches (kws : List String) (text : String) : Nat :=
  (kws.filter (fun kw => strIn (lowerStr kw) text)).length

/-- Field `min_relevance_score = 10.0` of the detector. -/
def minRelevanceScore : Int := 10

/-- Result triple of `calculate_margin_relevance_score`:
`(relevance_score, matched_details, mentioned_commodities)`. -/
structure ScoreResult where
  score : Int
  details : List String
  commodities : List String
deriving DecidableEq, Repr

/-- Embedding of `EnhancedMarginInterestDetector.calculate_margin_relevance_score`.
The context fields `title` and `full_context` are lower-cased on entry,
then the six signal buckets contribute in source order. -/
def calculateMarginRelevanceScore (rawTitle rawFullContext : String) : ScoreResult :=
  let title := lowerStr rawTitle
  let fullContext := lowerStr rawFullContext
  let primaryHit :=
    marginPrimaryPatterns.any (fun p => regexSearch p title || regexSearch p fullContext)
  let s1 : Int := if primaryHit then 30 else 0
  let d1 : List String := if primaryHit then ["margin_adjustment_primary"] else []
  let holidayHit :=
    holidayPatterns.any (fun h => strIn (lowerStr h) title || strIn (lowerStr h) fullContext)
  let s2 : Int := s1 + (if holidayHit then 15 else 0)
  let d2 := d1 ++ (if holidayHit then ["holiday_margin_adjustment"] else [])
  let mkCount := countMatches marginKeywords fullContext
  let s3 : Int := s2 + (if 0 < mkCount then (min (mkCount * 2) 10 : Nat) else 0)
  let d3 := d2 ++ (if 0 < mkCount then ["margin_keywords:" ++ toString mkCount] else [])
  let cCount := countMatches commodityKeywords fullContext
  let s4 : Int := s3 + (if 0 < cCount then (min (cCount * 2) 8 : Nat) else 0)
  let d4 := d3 ++ (if 0 < cCount then ["commodities:" ++ toString cCount] else [])
  let mentioned :=
    if 0 < cCount then
      (commodityKeywords.take 3).filter (fun kw => strIn (lowerStr kw) fullContext)
    else []
  let exchangeHit := exchangeKeywords.any (fun kw => strIn (lowerStr kw) fullContext)
  let s5 : Int := s4 + (if exchangeHit then 2 else 0)
  let d5 := d4 ++ (if exchangeHit then ["official_exchange_announcement"] else [])
  let exclusionHit := exclusionPatterns.any (fun p => regexSearch p title)
  let s6 : Int := s5 - (if exclusionHit then 20 else 0)
  let d6 := d5 ++ (if exclusionHit then ["excluded_non_margin"] else [])
  ⟨s6, d6, mentioned⟩

/-- Context extracted for a notice (`extract_notice_context` output fields
that feed the classifier). -/
structure NoticeContext where
  title : String
  dateText : String
  parentContext : String
deriving DecidableEq, Repr

/-- The `full_context` field: nonempty parts joined by a space, stripped. -/
def fullContextOf (ctx : NoticeContext) : String :=
  stripStr (String.intercalate " "
    (([ctx.title, ctx.dateText, ctx.parentContext]).filter (fun p => p ≠ "")))

/-- The dictionary returned by `is_notice_interesting`, restricted to its
decision-relevant fields. -/
structure Verdict where
  isInteresting : Bool
  score : Int
  details : List String
  commodities : List String
deriving DecidableEq, Repr

/-- Embedding of `EnhancedMarginInterestDetector.is_notice_interesting`:
empty title short-circuits to a non-interesting verdict with score 0;
otherwise the score is compared against `min_relevance_score`. -/
def isNoticeInteresting (ctx : NoticeContext) : Verdict :=
  if ctx.title = "" then ⟨false, 0, [], []⟩
  else
    let r := calculateMarginRelevanceScore ctx.title (fullContextOf ctx)
    ⟨decide (minRelevanceScore ≤ r.score), r.score, r.details, r.commodities⟩

/-- Classifier context for a bare title, as in the spec scenarios. -/
def ctxOfTitle (t : String) : NoticeContext := ⟨t, "", ""⟩

/-- Claim C9: for the title "Notice on Adjusting the Margin Ratio and Price
Limits of Copper Futures Trading" the strict-policy classifier computes a
relevance score of at least 10 (with the primary margin-adjustment pattern
among the matched details) and returns `isInteresting = true`.
The computed score is 46 = 30 (primary pattern) + 10 (five margin
keywords, capped) + 6 (three commodity keywords). -/
theorem margin_title_scores_at_least_ten :
    minRelevanceScore ≤
        (isNoticeInteresting (ctxOfTitle
          "Notice on Adjusting the Margin Ratio and Price Limits of Copper Futures Trading")).score
      ∧ (isNoticeInteresting (ctxOfTitle
          "Notice on Adjusting the Margin Ratio and Price Limits of Copper Futures Trading")).isInteresting
          = true
      ∧ "margin_adjustment_primary" ∈
          (isNoticeInteresting (ctxOfTitle
            "Notice on Adjusting the Margin Ratio and Price Limits of Copper Futures Trading")).details := by
  decide

/-- Claim C8, counterexample: on the title "Notice on Approving Brand
Registration for XYZ Warehouse" the classifier applies NO
administrative-exclusion penalty — the exclusion marker
`excluded_non_margin` is absent from the matched details and the score is
the non-negative value 4, so no fixed negative contribution occurred.
All exclusion regexes except `delivery.*suspend` are Chinese-language
patterns and none matches this English title. -/
theorem brand_registration_no_exclusion_penalty :
    "excluded_non_margin" ∉
        (isNoticeInteresting (ctxOfTitle
          "Notice on Approving Brand Registration for XYZ Warehouse")).details
      ∧ (isNoticeInteresting (ctxOfTitle
          "Notice on Approving Brand Registration for XYZ Warehouse")).score = 4 := by
  decide

/-- Claim C8, amended: the brand-registration title is indeed classified
`isInteresting = false`, but not through an exclusion penalty: its score
is 4 (two margin keywords match — "notice", and "ratio" as a substring of
"registration"), below the threshold 10, and the matched details carry no
exclusion marker. -/
theorem brand_registration_filtered_by_low_score :
    isNoticeInteresting (ctxOfTitle
        "Notice on Approving Brand Registration for XYZ Warehouse")
      = ⟨false, 4, ["margin_keywords:2"], []⟩ := by
  decide

/-! ## Parsed-notice validation (`LLMEnhancedSHFEScraper.scrape_notice_content`,
lines 795-836): the loop over the Gemini result's effective dates that
validates each commodity entry and converts the survivors to records. -/

/-- One element of a Gemini `commodities` array.  Percentages are optional:
the code reads them with `.get(key, 0)`. -/
structure ParsedCommodity where
  commodity : String
  hedgingPercentage : Option ℚ
  speculativePercentage : Option ℚ
  adjustmentType : Option String
  sourceSentence : String
deriving DecidableEq, Repr

/-- One element of the Gemini `effective_dates` array. -/
structure DateEntry where
  date : String
  commodities : List ParsedCommodity
deriving DecidableEq, Repr

/-- The record dictionary built at lines 810-827 of `scrape_notice_content`
(the fields that are constant strings or derived from the run are kept;
`batch_number` is attached later by `add_entry_to_batch`). -/
structure Entry where
  noticeDate : String
  title : String
  url : String
  commodity : String
  hedgingPercentage : ℚ
  speculativePercentage : ℚ
  effectiveDate : String
  adjustmentType : String
  sourceSentence : String
  parsingMethod : String
  confidence : String
  scrapedAt : String
  interestScore : Int
  interestDetails : String
  detectedCommodities : String
  entryType : String
  batchNumber : Nat
deriving DecidableEq, Repr

/-- Run-constant inputs of one `scrape_notice_content` call that flow into
every record it builds. -/
structure NoticeMeta where
  noticeDate : String
  title : String
  url : String
  confidence : String
  scrapedAt : String
  interest : Option Verdict
deriving Repr

/-- Construction of the entry dictionary (lines 810-827). -/
def mkEntry (m : NoticeMeta) (d : DateEntry) (c : ParsedCommodity) : Entry :=
  { noticeDate := m.noticeDate
    title := m.title
    url := m.url
    commodity := c.commodity
    hedgingPercentage := c.hedgingPercentage.getD 0
    speculativePercentage := c.speculativePercentage.getD 0
    effectiveDate := d.date
    adjustmentType := c.adjustmentType.getD "adjusted_to"
    sourceSentence := String.mk (c.sourceSentence.data.take 200)
    parsingMethod := "Gemini_Enhanced"
    confidence := m.confidence
    scrapedAt := m.scrapedAt
    interestScore := match m.interest with | some v => v.score | none => 0
    interestDetails := match m.interest with
      | some v => String.intercalate "; " v.details
      | none => ""
    detectedCommodities := match m.interest with
      | some v => String.intercalate "; " v.commodities
      | none => ""
    entryType := "margin_data"
    batchNumber := 0 }

/-- Inner loop over one effective-date group: an entry whose hedging or
speculative percentage exceeds 20 is skipped (`continue`), every other
entry is converted by `mkEntry` (and then passed to `add_entry_to_batch`). -/
def processDateEntry (m : NoticeMeta) (d : DateEntry) : List Entry :=
  d.commodities.filterMap (fun c =>
    if 20 < c.hedgingPercentage.getD 0 ∨ 20 < c.speculativePercentage.getD 0 then none
    else some (mkEntry m d c))

/-- Outer loop over `gemini_result['effective_dates']` (lines 796-831); the
returned list is, in order, every record passed to `add_entry_to_batch`. -/
def processGeminiDates (m : NoticeMeta) (dates : List DateEntry) : List Entry :=
  dates.flatMap (processDateEntry m)

/-- Claim C2, counterexample: a parsed commodity entry with hedging
percentage -5 (below 0) is NOT discarded — the only validation is the
upper-bound test `> 20` — and the resulting record is persisted with
`hedgingPercentage = -5 < 0`, refuting the claimed `[0, 20]` invariant. -/
theorem negative_percentage_is_persisted :
    processGeminiDates
        ⟨"2025-01-10", "T", "U", "high", "2025-01-10T09:00:00", none⟩
        [⟨"2025-01-15", [⟨"Copper", some (-5), some 9, some "adjusted_to", "s"⟩]⟩]
      = [mkEntry ⟨"2025-01-10", "T", "U", "high", "2025-01-10T09:00:00", none⟩
          ⟨"2025-01-15", [⟨"Copper", some (-5), some 9, some "adjusted_to", "s"⟩]⟩
          ⟨"Copper", some (-5), some 9, some "adjusted_to", "s"⟩]
      ∧ (mkEntry ⟨"2025-01-10", "T", "U", "high", "2025-01-10T09:00:00", none⟩
          ⟨"2025-01-15", [⟨"Copper", some (-5), some 9, some "adjusted_to", "s"⟩]⟩
          ⟨"Copper", some (-5), some 9, some "adjusted_to", "s"⟩).hedgingPercentage < 0 := by
  exact ⟨rfl, by norm_num [mkEntry]⟩

/-- Claim C2, amended: every record produced by the validation loop (and
hence every record handed to the batch engine) has hedging and speculative
percentages at most 20; entries exceeding 20 are discarded.  There is no
lower bound: the code never checks for negative values. -/
theorem persisted_percentages_at_most_twenty
    (m : NoticeMeta) (dates : List DateEntry) (e : Entry)
    (h : e ∈ processGeminiDates m dates) :
    e.hedgingPercentage ≤ 20 ∧ e.speculativePercentage ≤ 20 := by
  rw [processGeminiDates, List.mem_flatMap] at h
  obtain ⟨d, _, hd⟩ := h
  rw [processDateEntry, List.mem_filterMap] at hd
  obtain ⟨c, _, hc⟩ := hd
  split at hc
  case isTrue => exact Option.noConfusion hc
  case isFalse hb =>
    push_neg at hb
    obtain rfl := Option.some.inj hc
    exact ⟨by simpa [mkEntry] using hb.1, by simpa [mkEntry] using hb.2⟩

/-- Claim C2, amended, witness: the bound theorem applied to a concrete
one-entry parse result. -/
theorem persisted_percentages_at_most_twenty_witness :
    (mkEntry ⟨"2025-01-10", "T", "U", "high", "ts", none⟩
        ⟨"2025-01-15", [⟨"Gold", some 13, some 14, none, "s"⟩]⟩
        ⟨"Gold", some 13, some 14, none, "s"⟩).hedgingPercentage ≤ 20
      ∧ (mkEntry ⟨"2025-01-10", "T", "U", "high", "ts", none⟩
        ⟨"2025-01-15", [⟨"Gold", some 13, some 14, none, "s"⟩]⟩
        ⟨"Gold", some 13, some 14, none, "s"⟩).speculativePercentage ≤ 20 :=
  persisted_percentages_at_most_twenty
    ⟨"2025-01-10", "T", "U", "high", "ts", none⟩
    [⟨"2025-01-15", [⟨"Gold", some 13, some 14, none, "s"⟩]⟩]
    _ (by decide)

/-- A parsed commodity entry passes validation exactly when both of its
percentages are at most 20. -/
theorem validation_cond_iff (c : ParsedCommodity) :
    (20 < c.hedgingPercentage.getD 0 ∨ 20 < c.speculativePercentage.getD 0)
      ↔ ¬(c.hedgingPercentage.getD 0 ≤ 20 ∧ c.speculativePercentage.getD 0 ≤ 20) := by
  constructor
  · rintro (h | h) ⟨h1, h2⟩
    · exact absurd h1 (not_le.mpr h)
    · exact absurd h2 (not_le.mpr h)
  · intro h
    by_contra hc
    push_neg at hc
    exact h ⟨hc.1, hc.2⟩

/-- The skip-on-violation loop over one effective-date group equals
filtering the in-bounds entries and converting each of them. -/
theorem processDateEntry_eq_filter (m : NoticeMeta) (d : DateEntry) :
    processDateEntry m d
      = (d.commodities.filter (fun c =>
          decide (c.hedgingPercentage.getD 0 ≤ 20 ∧ c.speculativePercentage.getD 0 ≤ 20))).map
          (mkEntry m d) := by
  rw [processDateEntry]
  induction d.commodities with
  | nil => rfl
  | cons c cs ih =>
    simp only [List.filterMap_cons, List.filter_cons, ih]
    by_cases hb : 20 < c.hedgingPercentage.getD 0 ∨ 20 < c.speculativePercentage.getD 0
    · simp [hb, (validation_cond_iff c).mp hb]
    · have h2 := not_not.mp (fun h => hb ((validation_cond_iff c).mpr h))
      simp [hb, h2]

/-- Claim C4: validation drops offending entries individually, not whole
notices.  First conjunct: the processing of a parse result converts,
group by group, exactly the entries whose percentages are both at most
20 — so an entry reporting e.g. `hedgingPercentage = 25` is dropped while
nothing else is.  Second conjunct: every sibling entry in any
effective-date group whose percentages lie within `[0, 20]` is still
converted to a record and added to the batch, regardless of the other
entries in its group. -/
theorem offending_entry_dropped_siblings_kept
    (m : NoticeMeta) (dates : List DateEntry) (d : DateEntry) (c : ParsedCommodity) :
    (processGeminiDates m dates
        = dates.flatMap (fun d =>
            (d.commodities.filter (fun c =>
              decide (c.hedgingPercentage.getD 0 ≤ 20 ∧ c.speculativePercentage.getD 0 ≤ 20))).map
              (mkEntry m d)))
      ∧ (d ∈ dates → c ∈ d.commodities →
          0 ≤ c.hedgingPercentage.getD 0 → c.hedgingPercentage.getD 0 ≤ 20 →
          0 ≤ c.speculativePercentage.getD 0 → c.speculativePercentage.getD 0 ≤ 20 →
          mkEntry m d c ∈ processGeminiDates m dates) := by
  constructor
  · rw [processGeminiDates]
    exact List.flatMap_congr (fun d _ => processDateEntry_eq_filter m d)
  · intro hd hc _ h1 _ h2
    rw [processGeminiDates, List.mem_flatMap]
    refine ⟨d, hd, ?_⟩
    rw [processDateEntry, List.mem_filterMap]
    refine ⟨c, hc, ?_⟩
    rw [if_neg (fun hb => (validation_cond_iff c).mp hb ⟨h1, h2⟩)]

/-- Claim C4, witness: in a group holding Copper with `hedging = 25` and
Gold with `10/11`, the Gold sibling is still converted and batched. -/
theorem offending_entry_dropped_siblings_kept_witness :
    mkEntry ⟨"2025-04-25", "Labor Day notice", "U", "high", "ts", none⟩
        ⟨"2025-04-29", [⟨"Copper", some 25, some 26, none, "s"⟩,
                        ⟨"Gold", some 10, some 11, none, "s"⟩]⟩
        ⟨"Gold", some 10, some 11, none, "s"⟩
      ∈ processGeminiDates ⟨"2025-04-25", "Labor Day notice", "U", "high", "ts", none⟩
          [⟨"2025-04-29", [⟨"Copper", some 25, some 26, none, "s"⟩,
                           ⟨"Gold", some 10, some 11, none, "s"⟩]⟩] :=
  (offending_entry_dropped_siblings_kept
      ⟨"2025-04-25", "Labor Day notice", "U", "high", "ts", none⟩
      [⟨"2025-04-29", [⟨"Copper", some 25, some 26, none, "s"⟩,
                       ⟨"Gold", some 10, some 11, none, "s"⟩]⟩]
      ⟨"2025-04-29", [⟨"Copper", some 25, some 26, none, "s"⟩,
                      ⟨"Gold", some 10, some 11, none, "s"⟩]⟩
      ⟨"Gold", some 10, some 11, none, "s"⟩).2
    (by decide) (by decide) (by decide) (by decide) (by decide) (by decide)

/-! ## Batch persistence engine (`save_batch_to_csv`, `add_entry_to_batch`,
lines 692-743). -/

/-- The mutable fields of the scraper that the two batching methods touch:
`current_batch`, `extracted_data`, the durable CSV rows (each row carries
the batch number written in its last column), `total_saved_entries` and
`batch_count`. -/
structure BatchState where
  currentBatch : List Entry
  extractedData : List Entry
  csvRows : List (Entry × Nat)
  totalSavedEntries : Nat
  batchCount : Nat
deriving DecidableEq, Repr

/-- State at `__init__`: empty batch, nothing saved. -/
def initialBatchState : BatchState := ⟨[], [], [], 0, 0⟩

/-- Embedding of `save_batch_to_csv`: an empty batch without `force_save`
returns immediately; a nonempty batch increments `batch_count`, appends
its rows to the CSV, merges into `extracted_data`, updates the total and
clears the batch.  (With an empty batch and `force_save=True` the inner
`if self.current_batch:` guard still skips the body, leaving the state
unchanged.) -/
def saveBatchToCsv (forceSave : Bool) (s : BatchState) : BatchState :=
  if s.currentBatch = [] ∧ forceSave = false then s
  else if s.currentBatch = [] then s
  else
    { currentBatch := []
      extractedData := s.extractedData ++ s.currentBatch
      csvRows := s.csvRows ++ s.currentBatch.map (fun e => (e, s.batchCount + 1))
      totalSavedEntries := s.totalSavedEntries + s.currentBatch.length
      batchCount := s.batchCount + 1 }

/-- Field `batch_size = 10` of the scraper. -/
def batchSize : Nat := 10

/-- Embedding of `add_entry_to_batch`: stamp the entry with
`batch_count + 1`, append it to the batch, and flush when the batch has
reached `batch_size`. -/
def addEntryToBatch (e : Entry) (s : BatchState) : BatchState :=
  let s1 : BatchState :=
    { s with currentBatch := s.currentBatch ++ [{ e with batchNumber := s.batchCount + 1 }] }
  if batchSize ≤ s1.currentBatch.length then saveBatchToCsv false s1 else s1

/-- Claim C5: `add_entry_to_batch` appends the stamped record to the
in-memory batch and triggers a flush exactly when the batch length
reaches the threshold 10 (first two conjuncts, for any reachable state,
i.e. one whose batch is below the threshold); and `save_batch_to_csv` on
an empty batch without `force_save` changes no state (third conjunct). -/
theorem add_entry_flush_exactly_at_threshold
    (s : BatchState) (e : Entry) (hlen : s.currentBatch.length < batchSize) :
    (addEntryToBatch e s
        = if s.currentBatch.length + 1 = batchSize
          then saveBatchToCsv false
            { s with currentBatch := s.currentBatch ++ [{ e with batchNumber := s.batchCount + 1 }] }
          else { s with currentBatch := s.currentBatch ++ [{ e with batchNumber := s.batchCount + 1 }] })
      ∧ ((addEntryToBatch e s).batchCount = s.batchCount + 1
          ↔ s.currentBatch.length + 1 = batchSize)
      ∧ (∀ t : BatchState, t.currentBatch = [] → saveBatchToCsv false t = t) := by
  have hlen1 : (s.currentBatch ++ [{ e with batchNumber := s.batchCount + 1 }]).length
      = s.currentBatch.length + 1 := by simp
  have hne : s.currentBatch ++ [{ e with batchNumber := s.batchCount + 1 }] ≠ [] := by simp
  refine ⟨?_, ?_, ?_⟩
  · rw [addEntryToBatch]
    by_cases h : s.currentBatch.length + 1 = batchSize
    · rw [if_pos h, if_pos (by simp [hlen1, h])]
    · rw [if_neg h, if_neg (by rw [hlen1]; omega)]
  · rw [addEntryToBatch]
    by_cases h : s.currentBatch.length + 1 = batchSize
    · rw [if_pos (by simp [hlen1, h]), saveBatchToCsv,
        if_neg (by simp [hne]), if_neg (by simp [hne])]
      simp [h]
    · rw [if_neg (by rw [hlen1]; omega)]
      show s.batchCount = s.batchCount + 1 ↔ _
      constructor
      · intro hc
        omega
      · intro hc
        exact absurd hc h
  · intro t ht
    rw [saveBatchToCsv, if_pos ⟨ht, rfl⟩]

/-- Claim C5, witness: the theorem applied to the empty initial state and
a sample record (whose batch is below the threshold). -/
theorem add_entry_flush_exactly_at_threshold_witness :
    initialBatchState.currentBatch.length < batchSize
      ∧ ((addEntryToBatch
            (mkEntry ⟨"2025-01-10", "T", "U", "high", "ts", none⟩
              ⟨"2025-01-15", []⟩ ⟨"Gold", some 13, some 14, none, "s"⟩)
            initialBatchState).batchCount = initialBatchState.batchCount + 1
          ↔ initialBatchState.currentBatch.length + 1 = batchSize)
      ∧ saveBatchToCsv false initialBatchState = initialBatchState :=
  ⟨by decide,
   (add_entry_flush_exactly_at_threshold initialBatchState
      (mkEntry ⟨"2025-01-10", "T", "U", "high", "ts", none⟩
        ⟨"2025-01-15", []⟩ ⟨"Gold", some 13, some 14, none, "s"⟩) (by decide)).2.1,
   (add_entry_flush_exactly_at_threshold initialBatchState
      (mkEntry ⟨"2025-01-10", "T", "U", "high", "ts", none⟩
        ⟨"2025-01-15", []⟩ ⟨"Gold", some 13, some 14, none, "s"⟩) (by decide)).2.2
     initialBatchState rfl⟩

/-! ## Pagination controller and terminal paths of `run_scraper`
(lines 1034-1164) together with the interrupt handling of `main`
(lines 1401-1404).

The loop is modelled over a trace assigning to every page an outcome:
`ok` (the page was processed, some number of records were added via
`add_entry_to_batch`, and the next-page navigation either succeeded or
not), `errSession` (the iteration raised an exception whose message
matches the session/disconnect test), `errOther` (the iteration raised
any other exception), or `interrupt` (a `KeyboardInterrupt` fired during
the iteration).  Record identity is irrelevant to these claims, so the
batch is tracked by counts. -/

/-- Counters of one run: the current page number, the consecutive-empty-page
counter, the pending (unflushed) batch size, the number of records durably
written to the CSV, the total number of records ever passed to
`add_entry_to_batch`, and how many times `save_batch_to_csv(force_save=True)`
was invoked. -/
structure RunState where
  pageCount : Nat
  consecutiveEmpty : Nat
  pending : Nat
  durable : Nat
  totalAdded : Nat
  forcedFlushCount : Nat
deriving DecidableEq, Repr

/-- Run state after `setup_csv`. -/
def initialRunState : RunState := ⟨0, 0, 0, 0, 0, 0⟩

/-- Data effect of `save_batch_to_csv` (any flush): pending records become
durable. -/
def flushBatch (s : RunState) : RunState :=
  if s.pending = 0 then s
  else { s with durable := s.durable + s.pending, pending := 0 }

/-- A `save_batch_to_csv(force_save=True)` call: the data effect of a
flush, plus the invocation itself is recorded. -/
def forcedFlushSave (s : RunState) : RunState :=
  let s1 := flushBatch s
  { s1 with forcedFlushCount := s1.forcedFlushCount + 1 }

/-- One `add_entry_to_batch` call: the pending batch grows and is flushed
once it reaches `batch_size`. -/
def addOneRecord (s : RunState) : RunState :=
  let s1 := { s with pending := s.pending + 1, totalAdded := s.totalAdded + 1 }
  if batchSize ≤ s1.pending then flushBatch s1 else s1

/-- A sequence of `add_entry_to_batch` calls. -/
def addRecords : Nat → RunState → RunState
  | 0, s => s
  | n + 1, s => addRecords n (addOneRecord s)

/-- Net effect of `process_notices_on_page_safe` on the counters when the
page completes without escaping exception: the page's records are added
one by one, and the end-of-page save (lines 1017-1019) flushes whatever
is left in the batch. -/
def processPage (added : Nat) (s : RunState) : RunState :=
  flushBatch (addRecords added s)

/-- Possible outcomes of one iteration of the `while True` loop, each
carrying the number of records added before the iteration ended. -/
inductive PageOutcome where
  | ok (processed added : Nat) (hasNext : Bool)
  | errSession (added : Nat)
  | errOther (added : Nat)
  | interrupt (added : Nat)
deriving DecidableEq, Repr

/-- Whether an outcome is a page-level exception that is not recognized as
a session loss (the `else: continue` branch at lines 1093-1095). -/
def PageOutcome.isErrOther : PageOutcome → Bool
  | .errOther _ => true
  | _ => false

/-- How the `while True` loop was left. -/
inductive ExitKind where
  | stopped
  | noNextPage
  | sessionLost
  | interrupted
deriving DecidableEq, Repr

/-- Update of the consecutive-empty-page counter (lines 1070-1073). -/
def bumpEmpty (processed : Nat) (s2 : RunState) : RunState :=
  if processed = 0 then { s2 with consecutiveEmpty := s2.consecutiveEmpty + 1 }
  else { s2 with consecutiveEmpty := 0 }

/-- Rest of a loop iteration whose page processing returned normally:
update the counter, break when it exceeds 3 or the page count exceeds 15
(line 1076), otherwise break when no next page is found (line 1080). -/
def stepOk (processed added : Nat) (hasNext : Bool) (s1 : RunState) :
    RunState ⊕ (RunState × ExitKind) :=
  let s3 := bumpEmpty processed (processPage added s1)
  if 3 < s3.consecutiveEmpty ∨ 15 < s3.pageCount then .inr (s3, .stopped)
  else if hasNext then .inl s3
  else .inr (s3, .noNextPage)

/-- One iteration of the `while True` loop (lines 1060-1095).  `inl` means
the loop continues with the new state, `inr` that it ended.  On an
exception the handler force-saves the batch and either breaks (session
loss) or continues — without ever reaching the counter/page-bound
checks.  On a `KeyboardInterrupt` nothing is saved (`except Exception`
does not catch it) and the loop is left. -/
def loopStep (trace : Nat → PageOutcome) (s : RunState) :
    RunState ⊕ (RunState × ExitKind) :=
  let s1 := { s with pageCount := s.pageCount + 1 }
  match trace s.pageCount with
  | .ok processed added hasNext => stepOk processed added hasNext s1
  | .errSession added => .inr (forcedFlushSave (addRecords added s1), .sessionLost)
  | .errOther added => .inl (forcedFlushSave (addRecords added s1))
  | .interrupt added => .inr (addRecords added s1, .interrupted)

/-- The `while True` loop with fuel: `none` means the loop is still
running after `fuel` iterations. -/
def runLoop (trace : Nat → PageOutcome) : Nat → RunState → Option (RunState × ExitKind)
  | 0, _ => none
  | fuel + 1, s =>
    match loopStep trace s with
    | .inl s1 => runLoop trace fuel s1
    | .inr r => some r

/-- The loop eventually leaves the `while True` for some amount of fuel. -/
def LoopTerminates (trace : Nat → PageOutcome) : Prop :=
  ∃ fuel, (runLoop trace fuel initialRunState).isSome

/-- Terminal status of one pipeline invocation, as surfaced by `main`. -/
structure RunResult where
  finalState : RunState
  status : String
deriving DecidableEq, Repr

/-- Terminal behaviour of `run_scraper` under `main`: a failed initial page
load returns `None` immediately; a loop left by a break reaches the final
`save_batch_to_csv(force_save=True)` at line 1099; a `KeyboardInterrupt`
is NOT caught by `except Exception` (line 1151) — it propagates through
the `finally` block to `main`, whose `except KeyboardInterrupt` handler
returns the `interrupted` status without any flush. -/
def runScraper (loadOk : Bool) (trace : Nat → PageOutcome) (fuel : Nat) :
    Option RunResult :=
  if loadOk = false then some ⟨initialRunState, "load_failed"⟩
  else
    match runLoop trace fuel initialRunState with
    | none => none
    | some (s, .interrupted) => some ⟨s, "interrupted"⟩
    | some (s, _) => some ⟨forcedFlushSave s, "completed"⟩

/-- Claim C1: evaluation of the pipeline on the interrupt path.  With the
initial page loaded and a `KeyboardInterrupt` firing during page 1 after
one record was added to the batch, the run returns the `interrupted`
status with zero invocations of `save_batch_to_csv(force_save=True)` and
the added record not durable: `except Exception` at line 1151 does not
catch `KeyboardInterrupt` (a `BaseException`), and `main`'s
`except KeyboardInterrupt` handler (lines 1401-1404) returns without any
flush.  This contradicts both the claim and the code's own banner
"CRASH RECOVERY: Data saved incrementally, no loss on crashes". -/
theorem interrupt_path_skips_forced_flush :
    runScraper true (fun _ => PageOutcome.interrupt 1) 5
        = some ⟨⟨1, 0, 1, 0, 1, 0⟩, "interrupted"⟩
      ∧ (⟨1, 0, 1, 0, 1, 0⟩ : RunState).forcedFlushCount = 0
      ∧ (⟨1, 0, 1, 0, 1, 0⟩ : RunState).durable
          < (⟨1, 0, 1, 0, 1, 0⟩ : RunState).totalAdded := by
  refine ⟨rfl, rfl, by decide⟩

/-- Helper for claim C6: on the trace where every page raises a
non-session exception, the loop never leaves `while True`, whatever the
fuel — the `continue` at line 1095 bypasses the termination checks. -/
theorem runLoop_all_errOther_eq_none :
    ∀ fuel s, runLoop (fun _ => PageOutcome.errOther 0) fuel s = none := by
  intro fuel
  induction fuel with
  | zero => intro s; rfl
  | succ n ih =>
    intro s
    show runLoop _ n _ = none
    exact ih _

/-- Claim C6, counterexample: the pagination loop does NOT terminate for
every possible sequence of page outcomes — on the trace in which every
iteration raises a non-session page-level exception, the handler
force-saves and `continue`s without ever reaching the
consecutive-empty-page or maximum-page checks, so the loop runs forever. -/
theorem all_error_trace_loop_diverges :
    ¬ LoopTerminates (fun _ => PageOutcome.errOther 0) := by
  rintro ⟨fuel, h⟩
  rw [runLoop_all_errOther_eq_none] at h
  simp at h

/-- The page counter is unchanged by flushing. -/
theorem pageCount_flushBatch (s : RunState) : (flushBatch s).pageCount = s.pageCount := by
  rw [flushBatch]
  split <;> rfl

/-- The page counter is unchanged by one record addition. -/
theorem pageCount_addOneRecord (s : RunState) :
    (addOneRecord s).pageCount = s.pageCount := by
  rw [addOneRecord]
  split
  · exact pageCount_flushBatch _
  · rfl

/-- The page counter is unchanged by record additions. -/
theorem pageCount_addRecords (n : Nat) (s : RunState) :
    (addRecords n s).pageCount = s.pageCount := by
  induction n generalizing s with
  | zero => rfl
  | succ k ih => rw [addRecords, ih, pageCount_addOneRecord]

/-- The page counter is unchanged by page processing. -/
theorem pageCount_processPage (a : Nat) (s : RunState) :
    (processPage a s).pageCount = s.pageCount := by
  rw [processPage, pageCount_flushBatch, pageCount_addRecords]

/-- The page counter is unchanged by the counter update. -/
theorem pageCount_bumpEmpty (p : Nat) (s : RunState) :
    (bumpEmpty p s).pageCount = s.pageCount := by
  rw [bumpEmpty]
  split <;> rfl

/-- Helper for claim C6: with no non-session page exception in the trace,
the loop exits within `16 - pageCount` further iterations: every `ok`
iteration either breaks or raises the page counter towards the bound 15,
and `errSession` and `interrupt` iterations break at once. -/
theorem runLoop_isSome_of_no_errOther (trace : Nat → PageOutcome)
    (htr : ∀ i, (trace i).isErrOther = false) :
    ∀ fuel s, s.pageCount ≤ 15 → 16 ≤ s.pageCount + fuel →
      (runLoop trace fuel s).isSome = true := by
  intro fuel
  induction fuel with
  | zero => intro s h1 h2; omega
  | succ n ih =>
    intro s h1 h2
    rw [runLoop]
    rcases houtcome : trace s.pageCount with ⟨processed, added, hasNext⟩ | added | added | added
    · simp only [loopStep, houtcome, stepOk]
      set s3 := bumpEmpty processed (processPage added { s with pageCount := s.pageCount + 1 })
        with hs3
      have hpc : s3.pageCount = s.pageCount + 1 := by
        rw [hs3, pageCount_bumpEmpty, pageCount_processPage]
      by_cases hstop : 3 < s3.consecutiveEmpty ∨ 15 < s3.pageCount
      · rw [if_pos hstop]
        rfl
      · rw [if_neg hstop]
        push_neg at hstop
        cases hasNext
        · rw [if_neg Bool.false_ne_true]
          rfl
        · rw [if_pos rfl]
          exact ih s3 hstop.2 (by omega)
    · simp only [loopStep, houtcome]
      rfl
    · have := htr s.pageCount
      rw [houtcome] at this
      exact absurd this (by simp [PageOutcome.isErrOther])
    · simp only [loopStep, houtcome]
      rfl

/-- Claim C6, amended: the pagination loop terminates — within 16
iterations — for every sequence of page outcomes in which no page raises
a non-session exception (pages may still be empty, raise session-loss
errors, lack a next-page control, or be interrupted); a non-session
page-level exception re-enters the loop bypassing both bound checks, so
termination fails only on traces with infinitely many such exceptions. -/
theorem loop_terminates_without_other_errors (trace : Nat → PageOutcome)
    (htr : ∀ i, (trace i).isErrOther = false) :
    (runLoop trace 16 initialRunState).isSome = true :=
  runLoop_isSome_of_no_errOther trace htr 16 initialRunState (by decide) (by decide)

/-- Claim C6, amended, witness: the termination theorem applied to the
trace of empty pages with no next-page control. -/
theorem loop_terminates_without_other_errors_witness :
    (runLoop (fun _ => PageOutcome.ok 0 0 false) 16 initialRunState).isSome = true :=
  loop_terminates_without_other_errors (fun _ => PageOutcome.ok 0 0 false) (fun _ => rfl)

/-! ## XLS export (`SHFEDataExporter`, lines 31-198).

Worksheets are modelled as lists of rows of cells, written in the order
the source writes them.  Python dictionaries are modelled as association
lists with insertion-ordered upsert (matching dict semantics: an existing
key keeps its position and receives the new value). -/

/-- A worksheet cell: the source writes strings and numeric percentage
values. -/
inductive Cell where
  | str (s : String)
  | num (q : ℚ)
deriving DecidableEq, Repr

/-- Insertion-ordered dictionary update. -/
def upsert (k : String) (v : α) : List (String × α) → List (String × α)
  | [] => [(k, v)]
  | (k1, v1) :: rest => if k1 = k then (k, v) :: rest else (k1, v1) :: upsert k v rest

/-- Python `dict.get` / `dict[k]` on the association-list model. -/
def lookupA (k : String) : List (String × α) → Option α
  | [] => none
  | (k1, v1) :: rest => if k1 = k then some v1 else lookupA k rest

/-- The `commodity_name_mapping` table of
`_create_data_file_margin_focused` (lines 58-68). -/
def commodityNameMapping : List (String × String) :=
  [("Aluminum", "Aluminium"), ("Petroleum Asphalt", "Petroleum Asphalt "),
   ("Natural Rubber", "Natural Rubber"), ("Low-sulfur Fuel Oil", "Low-sulfur Fuel Oil"),
   ("Hot-rolled Coil", "Hot-rolled Coil"), ("Wire Rod", "Wire Rod"),
   ("Butadiene Rubber", "Butadiene Rubber"), ("Stainless Steel", "Stainless Steel"),
   ("Crude Oil", "Crude Oil")]

/-- The commodity-validity test of the export code: skip when the name is
falsy or lower-cases to `none`, `unknown` or the empty string. -/
def ValidCommodity (c : String) : Prop :=
  ¬(c = "" ∨ lowerStr c = "none" ∨ lowerStr c = "unknown" ∨ lowerStr c = "")

instance (c : String) : Decidable (ValidCommodity c) := by
  unfold ValidCommodity
  infer_instance

/-- Python `commodity.upper().replace(' ', '').replace('-', '_')`
(line 93), fused into one character pass. -/
def commodityClean (c : String) : String :=
  String.mk (c.data.filterMap (fun ch =>
    if ch = ' ' then none
    else if ch = '-' then some '_'
    else some (upperChar ch)))

/-- The two dictionaries accumulated by the entry loop of
`_create_data_file_margin_focused` (lines 74-110). -/
structure DataAcc where
  dataByDate : List (String × List (String × Cell))
  timeSeriesInfo : List (String × String)
deriving DecidableEq, Repr

/-- One iteration of the entry loop: skip non-margin entries and invalid
commodities, otherwise record both time-series codes for the entry's
effective date. -/
def dataStep (acc : DataAcc) (e : Entry) : DataAcc :=
  if e.entryType ≠ "margin_data" then acc
  else if ¬ ValidCommodity e.commodity then acc
  else
    let displayCommodity := (lookupA e.commodity commodityNameMapping).getD e.commodity
    let clean := commodityClean e.commodity
    let hedgingCode := clean ++ "_HEDGING_MARGIN"
    let speculativeCode := clean ++ "_SPECULATIVE_MARGIN"
    let hedgingDescription := displayCommodity ++ ": Margin ratio for hedging transactions"
    let speculativeDescription :=
      displayCommodity ++ ": Margin ratio for speculative transactions"
    let inner := (lookupA e.effectiveDate acc.dataByDate).getD []
    let inner1 := upsert speculativeCode (Cell.num e.speculativePercentage)
      (upsert hedgingCode (Cell.num e.hedgingPercentage) inner)
    { dataByDate := upsert e.effectiveDate inner1 acc.dataByDate
      timeSeriesInfo := upsert speculativeCode speculativeDescription
        (upsert hedgingCode hedgingDescription acc.timeSeriesInfo) }

/-- The grouping pass over all entries. -/
def buildDataAcc (entries : List Entry) : DataAcc :=
  entries.foldl dataStep ⟨[], []⟩

/-- Python string `<=` on code points, as a Bool. -/
def strLeB (a b : String) : Bool := !(decide (b < a))

/-- Insertion into a sorted list. -/
def insertLe (a : String) : List String → List String
  | [] => [a]
  | b :: rest => if strLeB a b then a :: b :: rest else b :: insertLe a rest

/-- Python `sorted` on strings (insertion sort; sorting is by code
points, as in CPython). -/
def sortStr (l : List String) : List String := l.foldr insertLe []

/-- The sorted nonempty effective dates: the row labels of the DATA sheet
(line 134). -/
def dataRowDates (entries : List Entry) : List String :=
  sortStr ((((buildDataAcc entries).dataByDate).map (fun p => p.1)).filter (fun d => d ≠ ""))

/-- Embedding of `_create_data_file_margin_focused`: the DATA sheet as its
list of rows (header codes row, descriptions row, then one row per sorted
nonempty effective date). -/
def dataSheetRows (entries : List Entry) : List (List Cell) :=
  let acc := buildDataAcc entries
  if acc.dataByDate = [] then
    [[Cell.str "DATE"], [Cell.str "No margin data available"]]
  else
    let sortedCodes := sortStr (acc.timeSeriesInfo.map (fun p => p.1))
    let row0 := Cell.str "DATE" :: sortedCodes.map Cell.str
    let row1 := Cell.str "Reporting Date"
      :: sortedCodes.map (fun c => Cell.str ((lookupA c acc.timeSeriesInfo).getD ""))
    let dataRows := (dataRowDates entries).map (fun d =>
      let inner := (lookupA d acc.dataByDate).getD []
      Cell.str d :: sortedCodes.map (fun c => (lookupA c inner).getD (Cell.str "")))
    row0 :: row1 :: dataRows

/-- Replacement of every non-overlapping occurrence of `pat` by `repl`,
scanning left to right (Python `str.replace`). -/
def replaceSub (pat repl : List Char) : List Char → List Char
  | [] => []
  | c :: rest =>
    if h : pat ≠ [] ∧ pat.isPrefixOf (c :: rest) then
      repl ++ replaceSub pat repl ((c :: rest).drop pat.length)
    else
      c :: replaceSub pat repl rest
termination_by s => s.length
decreasing_by
  · have hp : 1 ≤ pat.length := by
      cases pat with
      | nil => exact absurd rfl h.1
      | cons x xs => simp
    simp only [List.length_drop, List.length_cons]
    omega
  · simp

/-- The `commodity_display_mapping` table of
`_create_meta_file_margin_focused` (lines 166-169). -/
def commodityDisplayMapping : List (String × String) :=
  [("Aluminum", "Aluminium"), ("Petroleum Asphalt", "Petroleum Asphalt ")]

/-- Python
`commodity.replace('Aluminium', 'Aluminum').strip().upper().replace(' ', '').replace('-', '')`
(lines 180-181): the time-series identifier base. -/
def normalizedId (c : String) : String :=
  let n := trimChars (replaceSub "Aluminium".data "Aluminum".data c.data)
  String.mk (n.filterMap (fun ch =>
    if ch = ' ' ∨ ch = '-' then none else some (upperChar ch)))

/-- The deduplicated, sorted commodity names appearing in margin entries
with a valid commodity (lines 158-163 and the `sorted` at line 177). -/
def commoditiesInData (entries : List Entry) : List String :=
  sortStr ((entries.filterMap (fun e =>
    if e.entryType = "margin_data" ∧ ValidCommodity e.commodity
    then some e.commodity else none)).eraseDups)

/-- Embedding of `_create_meta_file_margin_focused`: the META sheet as its
list of rows. -/
def metaSheetRows (datasetName : String) (releaseDate : String) (entries : List Entry) :
    List (List Cell) :=
  let header := (["TIMESERIES_ID", "TIMESERIES_DESCRIPTION", "UNIT", "FREQUENCY",
    "SOURCE", "DATASET", "LAST_RELEASE_DATE", "NEXT_RELEASE_DATE"]).map Cell.str
  let rows := (commoditiesInData entries).flatMap (fun c =>
    ([("HEDGING", "hedging transactions"), ("SPECULATIVE", "speculative transactions")]).map
      (fun td =>
        let timeseriesId := normalizedId c ++ "_" ++ td.1 ++ "_MARGIN"
        let displayCommodity := (lookupA c commodityDisplayMapping).getD c
        [Cell.str timeseriesId,
         Cell.str (displayCommodity ++ ": Margin ratio for " ++ td.2),
         Cell.str "Percentage", Cell.str "Weekdaily",
         Cell.str "Shanghai Futures Exchange", Cell.str datasetName,
         Cell.str (releaseDate ++ "T11:00:00"), Cell.str ""]))
  header :: rows

/-- Output of `create_xls_files`: the two file names (which embed the
current-day timestamp `datetime.now().strftime("%Y%m%d")`, supplied here
as an argument) and the two sheet contents. -/
structure XlsOutput where
  dataFilename : String
  metaFilename : String
  dataSheet : List (List Cell)
  metaSheet : List (List Cell)
deriving DecidableEq, Repr

/-- Embedding of `SHFEDataExporter.create_xls_files` (lines 38-50). -/
def createXlsFiles (datasetName : String) (entries : List Entry) (releaseDate : String)
    (timestamp : String) : XlsOutput :=
  { dataFilename := datasetName ++ "_DATA_" ++ timestamp ++ ".xls"
    metaFilename := datasetName ++ "_META_" ++ timestamp ++ ".xls"
    dataSheet := dataSheetRows entries
    metaSheet := metaSheetRows datasetName releaseDate entries }

/-- Claim C7: export generation is idempotent — two runs of
`create_xls_files` on the same cumulative record list and release date
yield identical DATA and META sheet contents, even at different
invocation times (only the file names depend on the clock): the grouping,
sorting and metadata rows are functions of the inputs alone. -/
theorem export_sheets_deterministic (datasetName : String) (entries : List Entry)
    (releaseDate : String) (t1 t2 : String) :
    (createXlsFiles datasetName entries releaseDate t1).dataSheet
        = (createXlsFiles datasetName entries releaseDate t2).dataSheet
      ∧ (createXlsFiles datasetName entries releaseDate t1).metaSheet
        = (createXlsFiles datasetName entries releaseDate t2).metaSheet :=
  ⟨rfl, rfl⟩

/-- The export-relevant filter: margin entry type and valid commodity. -/
def ExportKept (e : Entry) : Prop :=
  e.entryType = "margin_data" ∧ ValidCommodity e.commodity

instance (e : Entry) : Decidable (ExportKept e) := by
  unfold ExportKept
  infer_instance

/-- Entries failing the type or commodity checks are skipped by the
grouping loop. -/
theorem dataStep_skip (acc : DataAcc) (e : Entry) (h : ¬ ExportKept e) :
    dataStep acc e = acc := by
  rw [dataStep]
  by_cases h1 : e.entryType = "margin_data"
  · rw [if_neg (not_not_intro h1)]
    rw [if_pos (fun h2 => h ⟨h1, h2⟩)]
  · rw [if_pos h1]

/-- The grouping pass ignores entries failing the filter. -/
theorem foldl_dataStep_filter (entries : List Entry) :
    ∀ acc : DataAcc,
      entries.foldl dataStep acc
        = (entries.filter (fun e => decide (ExportKept e))).foldl dataStep acc := by
  induction entries with
  | nil => intro acc; rfl
  | cons e rest ih =>
    intro acc
    by_cases h : ExportKept e
    · have hf : (e :: rest).filter (fun e => decide (ExportKept e))
          = e :: rest.filter (fun e => decide (ExportKept e)) := by
        simp [List.filter_cons, h]
      rw [List.foldl_cons, hf, List.foldl_cons, ih]
    · have hf : (e :: rest).filter (fun e => decide (ExportKept e))
          = rest.filter (fun e => decide (ExportKept e)) := by
        simp [List.filter_cons, h]
      rw [List.foldl_cons, dataStep_skip acc e h, hf, ih]

/-- Keys present after an upsert were the upserted key or already there. -/
theorem mem_keys_upsert (d k : String) (v : α) (m : List (String × α))
    (h : d ∈ (upsert k v m).map (fun p => p.1)) :
    d = k ∨ d ∈ m.map (fun p => p.1) := by
  induction m with
  | nil =>
    simp only [upsert, List.map_cons, List.map_nil, List.mem_singleton] at h
    exact Or.inl h
  | cons p rest ih =>
    rw [upsert] at h
    split at h
    · next heq =>
      simp only [List.map_cons, List.mem_cons] at h ⊢
      rcases h with h | h
      · exact Or.inl h
      · exact Or.inr (Or.inr h)
    · simp only [List.map_cons, List.mem_cons] at h ⊢
      rcases h with h | h
      · exact Or.inr (Or.inl h)
      · rcases ih h with h1 | h1
        · exact Or.inl h1
        · exact Or.inr (Or.inr h1)

/-- Every effective-date key of the grouped data stems from a kept entry. -/
theorem mem_keys_buildDataAcc (entries : List Entry) :
    ∀ (acc : DataAcc) (d : String),
      d ∈ (entries.foldl dataStep acc).dataByDate.map (fun p => p.1) →
      d ∈ acc.dataByDate.map (fun p => p.1)
        ∨ ∃ e ∈ entries, ExportKept e ∧ e.effectiveDate = d := by
  induction entries with
  | nil =>
    intro acc d h
    exact Or.inl h
  | cons e rest ih =>
    intro acc d h
    rw [List.foldl_cons] at h
    rcases ih (dataStep acc e) d h with h1 | ⟨e1, he1, hk, hd⟩
    · by_cases hkept : ExportKept e
      · rw [dataStep, if_neg (not_not_intro hkept.1), if_neg (not_not_intro hkept.2)] at h1
        rcases mem_keys_upsert d e.effectiveDate _ acc.dataByDate h1 with h2 | h2
        · exact Or.inr ⟨e, List.mem_cons_self .., hkept, h2.symm⟩
        · exact Or.inl h2
      · rw [dataStep_skip acc e hkept] at h1
        exact Or.inl h1
    · exact Or.inr ⟨e1, List.mem_cons_of_mem e he1, hk, hd⟩

/-- Membership in an insertion step of the sort. -/
theorem mem_insertLe (a x : String) (l : List String) :
    a ∈ insertLe x l ↔ a = x ∨ a ∈ l := by
  induction l with
  | nil => simp [insertLe]
  | cons b rest ih =>
    rw [insertLe]
    split
    · simp
    · simp only [List.mem_cons, ih]
      tauto

/-- Sorting preserves membership. -/
theorem mem_sortStr (a : String) (l : List String) : a ∈ sortStr l ↔ a ∈ l := by
  induction l with
  | nil => simp [sortStr]
  | cons b rest ih =>
    rw [sortStr, List.foldr_cons, mem_insertLe]
    rw [sortStr] at ih
    rw [ih, List.mem_cons]

/-- Claim C10: records persisted to the CSV log can be silently absent
from the exported DATA sheet.  First conjunct: the grouping that feeds
the sheet is blind to every entry whose `entry_type` is not
`margin_data` or whose commodity is missing or lower-cases to `none`,
`unknown` or empty — grouping the full list equals grouping only the kept
entries.  Second conjunct: every data row's date is nonempty and stems
from a kept entry, so entries with an empty `effective_date` (and all
filtered entries) produce no row. -/
theorem data_sheet_omits_filtered_entries (entries : List Entry) :
    (buildDataAcc entries
        = buildDataAcc (entries.filter (fun e => decide (ExportKept e))))
      ∧ ∀ d ∈ dataRowDates entries,
          d ≠ "" ∧ ∃ e ∈ entries, ExportKept e ∧ e.effectiveDate = d := by
  constructor
  · rw [buildDataAcc, buildDataAcc, foldl_dataStep_filter]
  · intro d hd
    rw [dataRowDates, mem_sortStr, List.mem_filter] at hd
    obtain ⟨hmem, hne⟩ := hd
    refine ⟨by simpa using hne, ?_⟩
    rcases mem_keys_buildDataAcc entries ⟨[], []⟩ d hmem with h | h
    · simp at h
    · exact h

/-- Claim C10, witness: with one margin entry whose commodity is the
string "None" (silently dropped) and one valid Copper entry, the only
data row date is the Copper entry's effective date, and the theorem
attributes it to a kept entry. -/
theorem data_sheet_omits_filtered_entries_witness :
    ("2025-03-01" ∈ dataRowDates
        [⟨"", "", "", "None", 8, 9, "2025-02-01", "adjusted_to", "", "", "", "", 0, "", "", "margin_data", 0⟩,
         ⟨"", "", "", "Copper", 8, 9, "2025-03-01", "adjusted_to", "", "", "", "", 0, "", "", "margin_data", 0⟩])
      ∧ ("2025-03-01" ≠ ""
          ∧ ∃ e ∈ ([⟨"", "", "", "None", 8, 9, "2025-02-01", "adjusted_to", "", "", "", "", 0, "", "", "margin_data", 0⟩,
              ⟨"", "", "", "Copper", 8, 9, "2025-03-01", "adjusted_to", "", "", "", "", 0, "", "", "margin_data", 0⟩] :
              List Entry),
              ExportKept e ∧ e.effectiveDate = "2025-03-01") :=
  ⟨by decide,
   (data_sheet_omits_filtered_entries
      [⟨"", "", "", "None", 8, 9, "2025-02-01", "adjusted_to", "", "", "", "", 0, "", "", "margin_data", 0⟩,
       ⟨"", "", "", "Copper", 8, 9, "2025-03-01", "adjusted_to", "", "", "", "", 0, "", "", "margin_data", 0⟩]).2
     "2025-03-01" (by decide)⟩

/-! ## Reversion resolver.

The resolver itself (`is_valid_reversion_notice`,
`process_reversion_notices`, `find_baseline_ratios`) belongs to a
variant of the scraper that is not part of this repository snapshot —
only its tests (`test_reversion_validation.py`, `test_baseline_system.py`,
`test_specific_notice.py`) call it.  It is therefore modelled from the
specification. -/

/-- The record kind distinguishing margin from operational records. -/
inductive RecordKind where
  | margin
  | operational
deriving DecidableEq, Repr

/-- The per-run uniqueness key `(commodity, effectiveDate, recordKind)`. -/
structure RecKey where
  commodity : String
  effectiveDate : String
  kind : RecordKind
deriving DecidableEq, Repr

/-- A `BaselineIndex` value: the most recent known non-holiday margin
ratios for a commodity. -/
structure BaselineRatios where
  hedging : ℚ
  speculative : ℚ
  sourceDate : String
deriving DecidableEq, Repr

/-- A record synthesized by the resolver. -/
structure InferredRecord where
  commodity : String
  effectiveDate : String
  kind : RecordKind
  hedgingPercentage : ℚ
  speculativePercentage : ℚ
  adjustmentType : String
  parsingMethod : String
deriving DecidableEq, Repr

/-- Modelled from the spec: the Reversion Resolver of section 4.5, whose
implementation is missing from `src/` (only its tests reference it).
For a validated reversion notice, for every commodity of the tracked
universe not explicitly listed for the target effective date, the
resolver looks up the commodity's baseline; a commodity with no baseline
is skipped, never fabricated; before synthesizing it checks the existing
in-memory/persisted record set for the same
`(commodity, effectiveDate, recordKind)` key and refuses to overwrite;
otherwise it synthesizes a `restored_to_original` record marked as
inferred. -/
def resolveReversion (commodityUniverse : List String) (targetDate : String)
    (explicitCommodities : List String) (baseline : String → Option BaselineRatios)
    (accepted : List RecKey) : List InferredRecord :=
  commodityUniverse.filterMap (fun c =>
    if c ∈ explicitCommodities then none
    else if (⟨c, targetDate, RecordKind.margin⟩ : RecKey) ∈ accepted then none
    else
      match baseline c with
      | none => none
      | some b => some ⟨c, targetDate, RecordKind.margin, b.hedging, b.speculative,
          "restored_to_original", "inferred"⟩)

/-- Claim C3: no record synthesized by the Reversion Resolver carries a
`(commodity, effectiveDate, recordKind)` key already present in the
accepted record set at the time of synthesis — the resolver checks the
existing set and refuses to create a duplicate. -/
theorem reversion_never_duplicates_key (commodityUniverse : List String) (targetDate : String)
    (explicitCommodities : List String) (baseline : String → Option BaselineRatios)
    (accepted : List RecKey) (r : InferredRecord)
    (hr : r ∈ resolveReversion commodityUniverse targetDate explicitCommodities baseline accepted) :
    (⟨r.commodity, r.effectiveDate, r.kind⟩ : RecKey) ∉ accepted := by
  rw [resolveReversion, List.mem_filterMap] at hr
  obtain ⟨c, _, hc⟩ := hr
  split at hc
  · exact Option.noConfusion hc
  · split at hc
    · exact Option.noConfusion hc
    · next hdup =>
      cases hb : baseline c with
      | none =>
        rw [hb] at hc
        exact Option.noConfusion hc
      | some b =>
        rw [hb] at hc
        obtain rfl := Option.some.inj hc
        exact hdup

/-- Claim C3, witness: the spec's scenario — Gold explicit for 2025-05-06,
Copper with baseline 8/9 as of 2025-02-05, empty accepted set — yields a
Copper record whose key is not in the accepted set. -/
theorem reversion_never_duplicates_key_witness :
    (⟨"Copper", "2025-05-06", RecordKind.margin, 8, 9, "restored_to_original", "inferred"⟩ :
        InferredRecord) ∈ resolveReversion ["Copper"] "2025-05-06" ["Gold"]
          (fun c => if c = "Copper" then some ⟨8, 9, "2025-02-05"⟩ else none) []
      ∧ (⟨"Copper", "2025-05-06", RecordKind.margin⟩ : RecKey) ∉ ([] : List RecKey) :=
  ⟨by decide,
   reversion_never_duplicates_key ["Copper"] "2025-05-06" ["Gold"]
     (fun c => if c = "Copper" then some ⟨8, 9, "2025-02-05"⟩ else none) []
     ⟨"Copper", "2025-05-06", RecordKind.margin, 8, 9, "restored_to_original", "inferred"⟩
     (by decide)⟩

end SHFE
